import Mathlib

/-!
Shallow embedding of the ONNX wrapper layer (onnx_wrapper.c) and the
buffer copy utilities (copyhelper.c) of the voice pipeline repository.

Caller-visible memory is modelled as total functions from Nat to an
arbitrary element type: a float buffer is a function assigning a value to
every index, and a memcpy is a pointwise overwrite of an index range.
Calls into the ONNX runtime are external to this layer, so each wrapper
function takes a scenario record saying which runtime call succeeds and
what data the runtime hands back; the wrapper code is then translated
statement by statement, branch by branch, from the C source.  Machine
integers appear where they change behaviour: the size_t accumulation in
onnx_run_asr reduces modulo 2 ^ 64 and its cast to C int reduces modulo
2 ^ 32 with signed reinterpretation.
-/

/-- Pointwise model of memcpy(dst + dOff, src + sOff, len * sizeof(float)):
indices in [dOff, dOff + len) now read from src, all others keep dst. -/
def memcpyF {α : Type} (dst : ℕ → α) (dOff : ℕ) (src : ℕ → α) (sOff len : ℕ) : ℕ → α :=
  fun j => if dOff ≤ j ∧ j < dOff + len then src (sOff + (j - dOff)) else dst j

/-- copyhelper.c, copy_strided_to_contiguous: for i in [0, count),
dst[i] = src[i * stride], written as the C loop folded left to right. -/
def copy_strided_to_contiguous {α : Type} (src dst : ℕ → α) (count stride : ℕ) : ℕ → α :=
  (List.range count).foldl (fun d i => fun j => if j = i then src (i * stride) else d j) dst

/-- copyhelper.c, the row-by-row branch of copy_2d_output: for each time
step t, memcpy vocab floats from row t of a source of row pitch stride1. -/
def copy_2d_rows {α : Type} (src dst : ℕ → α) (time vocab stride1 : ℕ) : ℕ → α :=
  (List.range time).foldl (fun d t => memcpyF d (t * vocab) src (t * stride1) vocab) dst

/-- copyhelper.c, copy_2d_output: one bulk memcpy when stride1 == vocab,
otherwise row-by-row; returns time * vocab in both branches. -/
def copy_2d_output {α : Type} (src dst : ℕ → α) (time vocab stride1 : ℕ) : (ℕ → α) × ℕ :=
  if stride1 = vocab then
    (memcpyF dst 0 src 0 (time * vocab), time * vocab)
  else
    (copy_2d_rows src dst time vocab stride1, time * vocab)

/-- Process-wide globals of onnx_wrapper.c: g_ort, g_env (modelled as
non-null flags) and the bounded last-error string g_error_msg. -/
structure Glob where
  g_ort : Bool
  g_env : Bool
  g_err : String

/-- onnx_init, with the two runtime calls (GetApi, CreateEnv) given as
success flags and the backend error message for the CreateEnv failure. -/
def onnx_init (apiOk envOk : Bool) (envMsg : String) (g : Glob) : Glob × ℤ :=
  if g.g_ort then (g, 0)
  else if !apiOk then ({ g_ort := false, g_env := g.g_env, g_err := "Failed to get ONNX Runtime API" }, -1)
  else if !envOk then ({ g_ort := false, g_env := g.g_env, g_err := envMsg }, -1)
  else ({ g_ort := true, g_env := true, g_err := g.g_err }, 0)

/-- onnx_cleanup: releases the environment and nulls both globals. -/
def onnx_cleanup (g : Glob) : Glob :=
  { g_ort := false, g_env := false, g_err := g.g_err }

/-- The OnnxSession struct: runtime handles modelled as non-null flags,
name arrays as optional lists of per-entry non-null flags. -/
structure SessionModel where
  hasSession : Bool
  hasOptions : Bool
  hasAllocator : Bool
  input_names : Option (List Bool)
  output_names : Option (List Bool)
  num_inputs : ℕ
  num_outputs : ℕ

/-- Runtime behaviour driving one onnx_create_session call: which runtime
calls succeed, the introspected input/output counts, whether each
SessionGetInputName / SessionGetOutputName call populates its entry, and
the backend message reported on a failing call. -/
structure CreateScenario where
  callocOk : Bool
  optionsOk : Bool
  coremlOk : Bool
  sessionOk : Bool
  allocatorOk : Bool
  numInputs : ℕ
  numOutputs : ℕ
  inputNameOk : ℕ → Bool
  outputNameOk : ℕ → Bool
  ortMsg : String

/-- onnx_create_session: guard on the globals, then option creation,
session creation, allocator retrieval (each fatal on failure, freeing
what was built), then name introspection.  Returns the session (or none)
and the last-error string after the call. -/
def onnx_create_session (g_ortOk g_envOk : Bool) (sc : CreateScenario)
    (err0 : String) : Option SessionModel × String :=
  if !g_ortOk || !g_envOk then (none, "ONNX Runtime not initialized")
  else if !sc.callocOk then (none, "Memory allocation failed")
  else if !sc.optionsOk then (none, sc.ortMsg)
  else if !sc.sessionOk then (none, sc.ortMsg)
  else if !sc.allocatorOk then (none, sc.ortMsg)
  else
    (some { hasSession := true, hasOptions := true, hasAllocator := true,
            input_names := some ((List.range sc.numInputs).map sc.inputNameOk),
            output_names := some ((List.range sc.numOutputs).map sc.outputNameOk),
            num_inputs := sc.numInputs, num_outputs := sc.numOutputs }, err0)

/-- Release actions performed by onnx_destroy_session, in trace order. -/
inductive DEvent where
  | freeName (output : Bool) (i : ℕ)
  | freeNameArray (output : Bool)
  | releaseSession
  | releaseOptions
  | freeStruct
deriving DecidableEq

/-- The name-array loop of onnx_destroy_session: skipped when the array
pointer is null; otherwise each non-null entry is freed through the
allocator when the allocator is non-null, then the array itself is freed.
The loop bound is the stored count; entries beyond the stored list read
as null (the arrays are calloc-zeroed at creation). -/
def destroyNames (num : ℕ) (names : Option (List Bool)) (hasAlloc : Bool)
    (output : Bool) : List DEvent :=
  match names with
  | none => []
  | some l =>
      ((List.range num).filterMap (fun i =>
        if l.getD i false && hasAlloc then some (DEvent.freeName output i) else none))
      ++ [DEvent.freeNameArray output]

/-- onnx_destroy_session: early return on a null handle, then input
names, output names, the session object (guarded on g_ort), the session
options object (guarded on g_ort), and finally free of the struct. -/
def onnx_destroy_session (g_ortOk : Bool) (s : Option SessionModel) : List DEvent :=
  match s with
  | none => []
  | some s =>
      destroyNames s.num_inputs s.input_names s.hasAllocator false
      ++ destroyNames s.num_outputs s.output_names s.hasAllocator true
      ++ (if s.hasSession && g_ortOk then [DEvent.releaseSession] else [])
      ++ (if s.hasOptions && g_ortOk then [DEvent.releaseOptions] else [])
      ++ [DEvent.freeStruct]

/-- Release rank used to state the destroy ordering: name arrays before
the session object before the options object before free of the struct. -/
def eventClass : DEvent → ℕ
  | DEvent.freeName _ _ => 0
  | DEvent.freeNameArray _ => 0
  | DEvent.releaseSession => 1
  | DEvent.releaseOptions => 2
  | DEvent.freeStruct => 3

/-- Ephemeral resources acquired inside one onnx_run_vad call. -/
inductive VadRes where
  | memInfo
  | audioT
  | combinedState
  | stateT
  | srT
  | outT0
  | outT1
deriving DecidableEq

/-- Runtime behaviour driving one onnx_run_vad call: which runtime calls
succeed, the data pointers GetTensorMutableData yields for the two
outputs (none models a null pointer), and the backend error message. -/
structure VadScenario (α : Type) where
  memInfoOk : Bool
  audioOk : Bool
  stateOk : Bool
  srOk : Bool
  runOk : Bool
  probData : Option (ℕ → α)
  stateData : Option (ℕ → α)
  ortMsg : String

/-- Everything observable after one onnx_run_vad call: return code, the
last-error string, the caller output buffers, the contents the transient
combined-state buffer held (none when it was never allocated), and the
ordered lists of resources acquired and released inside the call. -/
structure VadResult (α : Type) where
  ret : ℤ
  err : String
  prob : α
  h_out : ℕ → α
  c_out : ℕ → α
  packed : Option (ℕ → α)
  allocs : List VadRes
  frees : List VadRes

/-- Contents of the transient 256-float combined state buffer after the
two memcpy calls: h_in at [0,128), c_in at [128,256), the uninitialised
malloc contents elsewhere. -/
def vadPackedState {α : Type} (h_in c_in uninit : ℕ → α) : ℕ → α :=
  memcpyF (memcpyF uninit 0 h_in 0 128) 128 c_in 0 128

/-- The statement if (prob_data and prob_out) *prob_out = prob_data[0]:
a null data pointer or a null caller pointer skips the write. -/
def vadProbOut {α : Type} (pd : Option (ℕ → α)) (probNull : Bool) (prob0 : α) : α :=
  match pd, probNull with
  | some p, false => p 0
  | _, _ => prob0

/-- The statement if (h_out) memcpy(h_out, state_data, 128), under the
enclosing null check of state_data. -/
def vadHOut {α : Type} (sd : Option (ℕ → α)) (hNull : Bool) (h0 : ℕ → α) : ℕ → α :=
  match sd, hNull with
  | some s, false => memcpyF h0 0 s 0 128
  | _, _ => h0

/-- The statement if (c_out) memcpy(c_out, state_data + 128, 128), under
the enclosing null check of state_data. -/
def vadCOut {α : Type} (sd : Option (ℕ → α)) (cNull : Bool) (c0 : ℕ → α) : ℕ → α :=
  match sd, cNull with
  | some s, false => memcpyF c0 0 s 128 128
  | _, _ => c0

/-- onnx_run_vad, translated branch by branch: session/global guard,
CreateCpuMemoryInfo, audio tensor, combined-state malloc plus packing,
state tensor, sr tensor, Run, output extraction with null-skip, then the
release sequence of whichever path was taken. -/
def onnx_run_vad {α : Type} (sessionOk g_ortOk : Bool) (sc : VadScenario α)
    (h_in c_in uninit : ℕ → α)
    (probNull : Bool) (prob0 : α)
    (hNull : Bool) (h0 : ℕ → α)
    (cNull : Bool) (c0 : ℕ → α)
    (err0 : String) : VadResult α :=
  if !sessionOk || !g_ortOk then
    { ret := -1, err := "Invalid session", prob := prob0, h_out := h0, c_out := c0,
      packed := none, allocs := [], frees := [] }
  else if !sc.memInfoOk then
    { ret := -1, err := sc.ortMsg, prob := prob0, h_out := h0, c_out := c0,
      packed := none, allocs := [], frees := [] }
  else if !sc.audioOk then
    { ret := -1, err := sc.ortMsg, prob := prob0, h_out := h0, c_out := c0,
      packed := none, allocs := [VadRes.memInfo], frees := [VadRes.memInfo] }
  else
    let packed := vadPackedState h_in c_in uninit
    if !sc.stateOk then
      { ret := -1, err := sc.ortMsg, prob := prob0, h_out := h0, c_out := c0,
        packed := some packed,
        allocs := [VadRes.memInfo, VadRes.audioT, VadRes.combinedState],
        frees := [VadRes.combinedState, VadRes.audioT, VadRes.memInfo] }
    else if !sc.srOk then
      { ret := -1, err := sc.ortMsg, prob := prob0, h_out := h0, c_out := c0,
        packed := some packed,
        allocs := [VadRes.memInfo, VadRes.audioT, VadRes.combinedState, VadRes.stateT],
        frees := [VadRes.combinedState, VadRes.audioT, VadRes.stateT, VadRes.memInfo] }
    else if !sc.runOk then
      { ret := -1, err := sc.ortMsg, prob := prob0, h_out := h0, c_out := c0,
        packed := some packed,
        allocs := [VadRes.memInfo, VadRes.audioT, VadRes.combinedState, VadRes.stateT,
                   VadRes.srT],
        frees := [VadRes.combinedState, VadRes.audioT, VadRes.stateT, VadRes.srT,
                  VadRes.memInfo] }
    else
      { ret := 0, err := err0,
        prob := vadProbOut sc.probData probNull prob0,
        h_out := vadHOut sc.stateData hNull h0,
        c_out := vadCOut sc.stateData cNull c0,
        packed := some packed,
        allocs := [VadRes.memInfo, VadRes.audioT, VadRes.combinedState, VadRes.stateT,
                   VadRes.srT, VadRes.outT0, VadRes.outT1],
        frees := [VadRes.outT0, VadRes.outT1, VadRes.combinedState, VadRes.audioT,
                  VadRes.stateT, VadRes.srT, VadRes.memInfo] }

/-- Runtime behaviour driving one onnx_run_asr or onnx_run_speaker call:
which runtime calls succeed, whether Run hands back a non-null output
tensor, the runtime-reported output dimensions, the data pointer of the
output tensor (none models null), and the backend error message. -/
structure RunScenario (α : Type) where
  memInfoOk : Bool
  inputOk : Bool
  runOk : Bool
  outPresent : Bool
  outDims : List ℕ
  outData : Option (ℕ → α)
  ortMsg : String

/-- The size_t accumulation output_size *= dims[i] of onnx_run_asr,
starting from 1, each multiplication reducing modulo 2 ^ 64. -/
def asrOutputSize (dims : List ℕ) : ℕ :=
  dims.foldl (fun a d => a * d % 2 ^ 64) 1

/-- The C cast from size_t to int: truncate modulo 2 ^ 32 and reinterpret
the high bit as a sign. -/
def sizeTToInt (n : ℕ) : ℤ :=
  if n % 2 ^ 32 < 2 ^ 31 then ((n % 2 ^ 32 : ℕ) : ℤ)
  else ((n % 2 ^ 32 : ℕ) : ℤ) - 2 ^ 32

/-- Observable outcome of one onnx_run_asr call. -/
structure AsrResult (α : Type) where
  ret : ℤ
  err : String
  logits : ℕ → α

/-- onnx_run_asr, translated branch by branch: session/global guard,
CreateCpuMemoryInfo, input tensor, Run; on a present output tensor the
element count is the wrapped product of the reported dimensions, the
count is cast to int and compared against max_output_size, and on the
passing branch that many floats are copied (when both the output data
pointer and logits_out are non-null) and the cast count returned. -/
def onnx_run_asr {α : Type} (sessionOk g_ortOk : Bool) (sc : RunScenario α)
    (max_output_size : ℤ) (logitsNull : Bool) (logits0 : ℕ → α)
    (err0 : String) : AsrResult α :=
  if !sessionOk || !g_ortOk then
    { ret := -1, err := "Invalid session", logits := logits0 }
  else if !sc.memInfoOk then
    { ret := -1, err := sc.ortMsg, logits := logits0 }
  else if !sc.inputOk then
    { ret := -1, err := sc.ortMsg, logits := logits0 }
  else if sc.runOk && sc.outPresent then
    let output_size := asrOutputSize sc.outDims
    if sizeTToInt output_size ≤ max_output_size then
      match sc.outData, logitsNull with
      | some d, false =>
          { ret := sizeTToInt output_size, err := err0,
            logits := memcpyF logits0 0 d 0 output_size }
      | _, _ => { ret := sizeTToInt output_size, err := err0, logits := logits0 }
    else
      { ret := -1, err := "Output buffer too small", logits := logits0 }
  else if !sc.runOk then
    { ret := -1, err := sc.ortMsg, logits := logits0 }
  else
    { ret := -1, err := err0, logits := logits0 }

/-- Observable outcome of one onnx_run_speaker call. -/
structure SpeakerResult (α : Type) where
  ret : ℤ
  err : String
  emb : ℕ → α

/-- onnx_run_speaker, translated branch by branch.  On a successful Run
with a present output tensor, exactly 512 floats are copied whenever both
the output data pointer and embedding_out are non-null (the reported
output dimensions are never consulted); with either pointer null nothing
is copied, no error is recorded, and the initial -1 is returned. -/
def onnx_run_speaker {α : Type} (sessionOk g_ortOk : Bool) (sc : RunScenario α)
    (embNull : Bool) (emb0 : ℕ → α) (err0 : String) : SpeakerResult α :=
  if !sessionOk || !g_ortOk then
    { ret := -1, err := "Invalid session", emb := emb0 }
  else if !sc.memInfoOk then
    { ret := -1, err := sc.ortMsg, emb := emb0 }
  else if !sc.inputOk then
    { ret := -1, err := sc.ortMsg, emb := emb0 }
  else if sc.runOk && sc.outPresent then
    match sc.outData, embNull with
    | some d, false =>
        { ret := 0, err := err0, emb := memcpyF emb0 0 d 0 512 }
    | _, _ => { ret := -1, err := err0, emb := emb0 }
  else if !sc.runOk then
    { ret := -1, err := sc.ortMsg, emb := emb0 }
  else
    { ret := -1, err := err0, emb := emb0 }

/-- Reading inside the range written by a memcpy. -/
theorem memcpyF_in {α : Type} (dst : ℕ → α) (dOff : ℕ) (src : ℕ → α) (sOff len j : ℕ)
    (h1 : dOff ≤ j) (h2 : j < dOff + len) :
    memcpyF dst dOff src sOff len j = src (sOff + (j - dOff)) := by
  simp only [memcpyF]
  rw [if_pos ⟨h1, h2⟩]

/-- Reading outside the range written by a memcpy. -/
theorem memcpyF_out {α : Type} (dst : ℕ → α) (dOff : ℕ) (src : ℕ → α) (sOff len j : ℕ)
    (h : ¬ (dOff ≤ j ∧ j < dOff + len)) :
    memcpyF dst dOff src sOff len j = dst j := by
  simp only [memcpyF]
  rw [if_neg h]

/-- Loop characterisation of copy_strided_to_contiguous: after the loop,
index j holds src (j * stride) when j < count and its old value otherwise. -/
theorem copy_strided_to_contiguous_eq {α : Type} (src dst : ℕ → α)
    (stride count j : ℕ) :
    copy_strided_to_contiguous src dst count stride j =
      if j < count then src (j * stride) else dst j := by
  induction count with
  | zero => simp [copy_strided_to_contiguous]
  | succ n ih =>
    have hsplit : copy_strided_to_contiguous src dst (n + 1) stride =
        fun j => if j = n then src (n * stride)
                 else copy_strided_to_contiguous src dst n stride j := by
      unfold copy_strided_to_contiguous
      rw [List.range_succ, List.foldl_append]
      rfl
    rw [hsplit]
    by_cases hj : j = n
    · subst hj; simp
    · simp only [if_neg hj]
      rw [ih]
      by_cases h1 : j < n
      · rw [if_pos h1, if_pos (by omega)]
      · rw [if_neg h1, if_neg (by omega)]

/-- Row index arithmetic: a row-t, column-v position lies before row n. -/
theorem row_index_lt {t n v vocab : ℕ} (ht : t < n) (hv : v < vocab) :
    t * vocab + v < n * vocab := by
  have h : (t + 1) * vocab ≤ n * vocab := Nat.mul_le_mul_right vocab ht
  rw [Nat.succ_mul] at h
  omega

/-- Element characterisation of the row-by-row branch: position
(t, v) of the destination reads source position t * stride1 + v. -/
theorem copy_2d_rows_get {α : Type} (src dst : ℕ → α) (vocab stride1 : ℕ) :
    ∀ time t v, t < time → v < vocab →
      copy_2d_rows src dst time vocab stride1 (t * vocab + v) =
        src (t * stride1 + v) := by
  intro time
  induction time with
  | zero => intro t v ht _; omega
  | succ n ih =>
    intro t v ht hv
    have hsplit : copy_2d_rows src dst (n + 1) vocab stride1 =
        memcpyF (copy_2d_rows src dst n vocab stride1) (n * vocab) src
          (n * stride1) vocab := by
      unfold copy_2d_rows
      rw [List.range_succ, List.foldl_append]
      rfl
    rw [hsplit]
    by_cases htn : t = n
    · subst htn
      have hc : t * vocab ≤ t * vocab + v ∧ t * vocab + v < t * vocab + vocab := by omega
      simp only [memcpyF, hc, and_self, if_pos]
      congr 1
      omega
    · have htlt : t < n := by omega
      have hlt : t * vocab + v < n * vocab := row_index_lt htlt hv
      have hc : ¬ (n * vocab ≤ t * vocab + v ∧ t * vocab + v < n * vocab + vocab) := by
        omega
      simp only [memcpyF, hc, if_neg, not_false_iff]
      exact ih t v htlt hv

/-- When the row pitch equals the row width the row-by-row branch writes
exactly the contiguous prefix of length time * vocab. -/
theorem copy_2d_rows_contiguous {α : Type} (src dst : ℕ → α) (vocab : ℕ) :
    ∀ time j, copy_2d_rows src dst time vocab vocab j =
      if j < time * vocab then src j else dst j := by
  intro time
  induction time with
  | zero => intro j; simp [copy_2d_rows]
  | succ n ih =>
    intro j
    have hsplit : copy_2d_rows src dst (n + 1) vocab vocab =
        memcpyF (copy_2d_rows src dst n vocab vocab) (n * vocab) src
          (n * vocab) vocab := by
      unfold copy_2d_rows
      rw [List.range_succ, List.foldl_append]
      rfl
    rw [hsplit]
    have hmul : (n + 1) * vocab = n * vocab + vocab := by rw [Nat.succ_mul]
    by_cases hc : n * vocab ≤ j ∧ j < n * vocab + vocab
    · simp only [memcpyF, hc, and_self, if_pos]
      have hj : j < (n + 1) * vocab := by omega
      rw [if_pos hj]
      congr 1
      omega
    · simp only [memcpyF, hc, if_neg, not_false_iff]
      rw [ih]
      by_cases h1 : j < n * vocab
      · rw [if_pos h1, if_pos (by omega)]
      · rw [if_neg h1, if_neg (by omega)]

/-- C9: copy_strided_to_contiguous writes dst[i] = src[i * stride] for
every i < count, and for stride = 1 the destination equals a straight
duplicate of the first count source elements. -/
theorem copy_strided_to_contiguous_spec {α : Type} (src dst : ℕ → α)
    (count stride i : ℕ) (hi : i < count) :
    copy_strided_to_contiguous src dst count stride i = src (i * stride) ∧
    copy_strided_to_contiguous src dst count 1 i = src i := by
  constructor
  · rw [copy_strided_to_contiguous_eq, if_pos hi]
  · rw [copy_strided_to_contiguous_eq, if_pos hi, Nat.mul_one]

/-- Witness for C9 at count = 4, stride = 3, i = 2. -/
theorem copy_strided_to_contiguous_spec_witness :
    copy_strided_to_contiguous (fun n => (n : ℤ)) (fun _ => 0) 4 3 2 = ((2 * 3 : ℕ) : ℤ) ∧
    copy_strided_to_contiguous (fun n => (n : ℤ)) (fun _ => 0) 4 1 2 = ((2 : ℕ) : ℤ) :=
  copy_strided_to_contiguous_spec (fun n => (n : ℤ)) (fun _ => 0) 4 3 2 (by decide)

/-- C8: copy_2d_output returns time * vocab on both branches, element
(t, v) of the destination equals source element t * stride1 + v, and when
stride1 = vocab the bulk-copy fast path is pointwise identical to the
row-by-row path. -/
theorem copy_2d_output_spec {α : Type} (src dst : ℕ → α)
    (time vocab stride1 t v : ℕ) (ht : t < time) (hv : v < vocab) :
    (copy_2d_output src dst time vocab stride1).2 = time * vocab ∧
    (copy_2d_output src dst time vocab stride1).1 (t * vocab + v) =
      src (t * stride1 + v) ∧
    (stride1 = vocab →
      (copy_2d_output src dst time vocab stride1).1 =
        copy_2d_rows src dst time vocab stride1) := by
  refine ⟨?_, ?_, ?_⟩
  · unfold copy_2d_output
    by_cases h : stride1 = vocab <;> simp [h]
  · by_cases h : stride1 = vocab
    · have hlt : t * vocab + v < time * vocab := row_index_lt ht hv
      unfold copy_2d_output
      rw [if_pos h]
      show memcpyF dst 0 src 0 (time * vocab) (t * vocab + v) = src (t * stride1 + v)
      unfold memcpyF
      rw [if_pos ⟨Nat.zero_le _, by omega⟩, h]
      congr 1
      omega
    · unfold copy_2d_output
      rw [if_neg h]
      exact copy_2d_rows_get src dst vocab stride1 time t v ht hv
  · intro h
    unfold copy_2d_output
    rw [if_pos h, h]
    funext j
    show memcpyF dst 0 src 0 (time * vocab) j = copy_2d_rows src dst time vocab vocab j
    rw [copy_2d_rows_contiguous]
    unfold memcpyF
    by_cases hj : j < time * vocab
    · rw [if_pos ⟨Nat.zero_le _, by omega⟩, if_pos hj]
      congr 1
      omega
    · rw [if_neg (by omega), if_neg hj]

/-- Witness for C8 at time = 2, vocab = 3, stride1 = 3, t = 1, v = 2. -/
theorem copy_2d_output_spec_witness :
    (copy_2d_output (fun n => (n : ℤ)) (fun _ => 0) 2 3 3).2 = 2 * 3 ∧
    (copy_2d_output (fun n => (n : ℤ)) (fun _ => 0) 2 3 3).1 (1 * 3 + 2) =
      (fun n => (n : ℤ)) (1 * 3 + 2) ∧
    (3 = 3 →
      (copy_2d_output (fun n => (n : ℤ)) (fun _ => 0) 2 3 3).1 =
        copy_2d_rows (fun n => (n : ℤ)) (fun _ => 0) 2 3 3) :=
  copy_2d_output_spec (fun n => (n : ℤ)) (fun _ => 0) 2 3 3 1 2 (by decide) (by decide)

/-- C1: onnx_run_vad packs h_in then c_in into the contiguous 256-float
state buffer, unpacks h_out from the first 128 and c_out from the last
128 floats of the state output, and packing followed by unpacking with no
inference interposed returns the identical pair. -/
theorem onnx_run_vad_state_spec {α : Type} (h_in c_in uninit h0 c0 : ℕ → α)
    (p0 : α) (pd : Option (ℕ → α)) (sd : ℕ → α) (m err0 : String)
    (i : ℕ) (hi : i < 128) :
    (onnx_run_vad true true ⟨true, true, true, true, true, pd, some sd, m⟩
        h_in c_in uninit false p0 false h0 false c0 err0).packed =
      some (vadPackedState h_in c_in uninit) ∧
    vadPackedState h_in c_in uninit i = h_in i ∧
    vadPackedState h_in c_in uninit (128 + i) = c_in i ∧
    (onnx_run_vad true true ⟨true, true, true, true, true, pd, some sd, m⟩
        h_in c_in uninit false p0 false h0 false c0 err0).h_out i = sd i ∧
    (onnx_run_vad true true ⟨true, true, true, true, true, pd, some sd, m⟩
        h_in c_in uninit false p0 false h0 false c0 err0).c_out i = sd (128 + i) ∧
    (sd = vadPackedState h_in c_in uninit →
      (onnx_run_vad true true ⟨true, true, true, true, true, pd, some sd, m⟩
          h_in c_in uninit false p0 false h0 false c0 err0).h_out i = h_in i ∧
      (onnx_run_vad true true ⟨true, true, true, true, true, pd, some sd, m⟩
          h_in c_in uninit false p0 false h0 false c0 err0).c_out i = c_in i) := by
  have hpack : vadPackedState h_in c_in uninit i = h_in i := by
    unfold vadPackedState
    rw [memcpyF_out _ _ _ _ _ _ (by omega), memcpyF_in _ _ _ _ _ _ (by omega) (by omega),
      show 0 + (i - 0) = i by omega]
  have hpackc : vadPackedState h_in c_in uninit (128 + i) = c_in i := by
    unfold vadPackedState
    rw [memcpyF_in _ _ _ _ _ _ (by omega) (by omega),
      show 0 + (128 + i - 128) = i by omega]
  have hh : (onnx_run_vad true true ⟨true, true, true, true, true, pd, some sd, m⟩
      h_in c_in uninit false p0 false h0 false c0 err0).h_out i = sd i := by
    show memcpyF h0 0 sd 0 128 i = sd i
    rw [memcpyF_in _ _ _ _ _ _ (by omega) (by omega), show 0 + (i - 0) = i by omega]
  have hc : (onnx_run_vad true true ⟨true, true, true, true, true, pd, some sd, m⟩
      h_in c_in uninit false p0 false h0 false c0 err0).c_out i = sd (128 + i) := by
    show memcpyF c0 0 sd 128 128 i = sd (128 + i)
    rw [memcpyF_in _ _ _ _ _ _ (by omega) (by omega),
      show (128 : ℕ) + (i - 0) = 128 + i by omega]
  refine ⟨rfl, hpack, hpackc, hh, hc, ?_⟩
  intro hsd
  constructor
  · rw [hh, hsd, hpack]
  · rw [hc, hsd, hpackc]

/-- Witness for C1 at i = 5 with the state output equal to the packed
state pair, so the round-trip conclusion applies with its hypothesis
discharged definitionally. -/
theorem onnx_run_vad_state_spec_witness :
    (onnx_run_vad true true
        ⟨true, true, true, true, true, none,
         some (vadPackedState (fun n => (n : ℤ)) (fun n => (n : ℤ) + 1000) (fun _ => 0)), ""⟩
        (fun n => (n : ℤ)) (fun n => (n : ℤ) + 1000) (fun _ => 0)
        false 0 false (fun _ => -1) false (fun _ => -1) "").packed =
      some (vadPackedState (fun n => (n : ℤ)) (fun n => (n : ℤ) + 1000) (fun _ => 0)) ∧
    vadPackedState (fun n => (n : ℤ)) (fun n => (n : ℤ) + 1000) (fun _ => 0) 5 =
      (fun n => (n : ℤ)) 5 ∧
    vadPackedState (fun n => (n : ℤ)) (fun n => (n : ℤ) + 1000) (fun _ => 0) (128 + 5) =
      (fun n => (n : ℤ) + 1000) 5 ∧
    (onnx_run_vad true true
        ⟨true, true, true, true, true, none,
         some (vadPackedState (fun n => (n : ℤ)) (fun n => (n : ℤ) + 1000) (fun _ => 0)), ""⟩
        (fun n => (n : ℤ)) (fun n => (n : ℤ) + 1000) (fun _ => 0)
        false 0 false (fun _ => -1) false (fun _ => -1) "").h_out 5 =
      vadPackedState (fun n => (n : ℤ)) (fun n => (n : ℤ) + 1000) (fun _ => 0) 5 ∧
    (onnx_run_vad true true
        ⟨true, true, true, true, true, none,
         some (vadPackedState (fun n => (n : ℤ)) (fun n => (n : ℤ) + 1000) (fun _ => 0)), ""⟩
        (fun n => (n : ℤ)) (fun n => (n : ℤ) + 1000) (fun _ => 0)
        false 0 false (fun _ => -1) false (fun _ => -1) "").c_out 5 =
      vadPackedState (fun n => (n : ℤ)) (fun n => (n : ℤ) + 1000) (fun _ => 0) (128 + 5) ∧
    (vadPackedState (fun n => (n : ℤ)) (fun n => (n : ℤ) + 1000) (fun _ => 0) =
        vadPackedState (fun n => (n : ℤ)) (fun n => (n : ℤ) + 1000) (fun _ => 0) →
      (onnx_run_vad true true
          ⟨true, true, true, true, true, none,
           some (vadPackedState (fun n => (n : ℤ)) (fun n => (n : ℤ) + 1000) (fun _ => 0)), ""⟩
          (fun n => (n : ℤ)) (fun n => (n : ℤ) + 1000) (fun _ => 0)
          false 0 false (fun _ => -1) false (fun _ => -1) "").h_out 5 =
        (fun n => (n : ℤ)) 5 ∧
      (onnx_run_vad true true
          ⟨true, true, true, true, true, none,
           some (vadPackedState (fun n => (n : ℤ)) (fun n => (n : ℤ) + 1000) (fun _ => 0)), ""⟩
          (fun n => (n : ℤ)) (fun n => (n : ℤ) + 1000) (fun _ => 0)
          false 0 false (fun _ => -1) false (fun _ => -1) "").c_out 5 =
        (fun n => (n : ℤ) + 1000) 5) :=
  onnx_run_vad_state_spec (fun n => (n : ℤ)) (fun n => (n : ℤ) + 1000) (fun _ => 0)
    (fun _ => -1) (fun _ => -1) 0 none
    (vadPackedState (fun n => (n : ℤ)) (fun n => (n : ℤ) + 1000) (fun _ => 0)) "" "" 5
    (by decide)

/-- Release order versus acquisition order on the state-tensor failure path. -/
theorem vadPermState :
    [VadRes.combinedState, VadRes.audioT, VadRes.memInfo].Perm
      [VadRes.memInfo, VadRes.audioT, VadRes.combinedState] := by decide

/-- Release order versus acquisition order on the sr-tensor failure path. -/
theorem vadPermSr :
    [VadRes.combinedState, VadRes.audioT, VadRes.stateT, VadRes.memInfo].Perm
      [VadRes.memInfo, VadRes.audioT, VadRes.combinedState, VadRes.stateT] := by decide

/-- Release order versus acquisition order on the Run failure path. -/
theorem vadPermRun :
    [VadRes.combinedState, VadRes.audioT, VadRes.stateT, VadRes.srT,
      VadRes.memInfo].Perm
      [VadRes.memInfo, VadRes.audioT, VadRes.combinedState, VadRes.stateT,
        VadRes.srT] := by decide

/-- Release order versus acquisition order on the success path. -/
theorem vadPermSuccess :
    [VadRes.outT0, VadRes.outT1, VadRes.combinedState, VadRes.audioT,
      VadRes.stateT, VadRes.srT, VadRes.memInfo].Perm
      [VadRes.memInfo, VadRes.audioT, VadRes.combinedState, VadRes.stateT,
        VadRes.srT, VadRes.outT0, VadRes.outT1] := by decide

/-- C4: on every exit path of onnx_run_vad the list of resources released
is a permutation of the list of resources acquired, so the transient
state buffer and every ephemeral runtime object created inside the call
is released exactly once and nothing survives the call. -/
theorem onnx_run_vad_no_leak {α : Type} (sessionOk g_ortOk : Bool)
    (sc : VadScenario α) (h_in c_in uninit : ℕ → α)
    (probNull : Bool) (prob0 : α) (hNull : Bool) (h0 : ℕ → α)
    (cNull : Bool) (c0 : ℕ → α) (err0 : String) :
    (onnx_run_vad sessionOk g_ortOk sc h_in c_in uninit probNull prob0
        hNull h0 cNull c0 err0).frees.Perm
      (onnx_run_vad sessionOk g_ortOk sc h_in c_in uninit probNull prob0
        hNull h0 cNull c0 err0).allocs := by
  obtain ⟨mi, au, st, sr, run, pd, sd, msg⟩ := sc
  cases sessionOk <;> cases g_ortOk <;> cases mi <;> cases au <;> cases st <;>
    cases sr <;> cases run <;>
    first
    | exact List.Perm.refl _
    | exact vadPermState
    | exact vadPermSr
    | exact vadPermRun
    | exact vadPermSuccess

/-- C7: when inference succeeds, a null prob_out, h_out or c_out pointer
just skips that copy; non-null outputs are still written and the call
returns 0 regardless of which output pointers are null. -/
theorem onnx_run_vad_null_outputs {α : Type} (h_in c_in uninit h0 c0 : ℕ → α)
    (p0 : α) (pdf sdf : ℕ → α) (m err0 : String)
    (probNull hNull cNull : Bool) (i : ℕ) (hi : i < 128) :
    (onnx_run_vad true true ⟨true, true, true, true, true, some pdf, some sdf, m⟩
        h_in c_in uninit probNull p0 hNull h0 cNull c0 err0).ret = 0 ∧
    (probNull = true →
      (onnx_run_vad true true ⟨true, true, true, true, true, some pdf, some sdf, m⟩
          h_in c_in uninit probNull p0 hNull h0 cNull c0 err0).prob = p0) ∧
    (probNull = false →
      (onnx_run_vad true true ⟨true, true, true, true, true, some pdf, some sdf, m⟩
          h_in c_in uninit probNull p0 hNull h0 cNull c0 err0).prob = pdf 0) ∧
    (hNull = true →
      (onnx_run_vad true true ⟨true, true, true, true, true, some pdf, some sdf, m⟩
          h_in c_in uninit probNull p0 hNull h0 cNull c0 err0).h_out = h0) ∧
    (hNull = false →
      (onnx_run_vad true true ⟨true, true, true, true, true, some pdf, some sdf, m⟩
          h_in c_in uninit probNull p0 hNull h0 cNull c0 err0).h_out i = sdf i) ∧
    (cNull = true →
      (onnx_run_vad true true ⟨true, true, true, true, true, some pdf, some sdf, m⟩
          h_in c_in uninit probNull p0 hNull h0 cNull c0 err0).c_out = c0) ∧
    (cNull = false →
      (onnx_run_vad true true ⟨true, true, true, true, true, some pdf, some sdf, m⟩
          h_in c_in uninit probNull p0 hNull h0 cNull c0 err0).c_out i = sdf (128 + i)) := by
  cases probNull <;> cases hNull <;> cases cNull <;>
    refine ⟨rfl, ?_, ?_, ?_, ?_, ?_, ?_⟩ <;> intro h <;> first
    | exact rfl
    | exact absurd h (by decide)
    | (show memcpyF h0 0 sdf 0 128 i = sdf i
       rw [memcpyF_in _ _ _ _ _ _ (by omega) (by omega), show 0 + (i - 0) = i by omega])
    | (show memcpyF c0 0 sdf 128 128 i = sdf (128 + i)
       rw [memcpyF_in _ _ _ _ _ _ (by omega) (by omega),
         show (128 : ℕ) + (i - 0) = 128 + i by omega])

/-- Witness for C7 at i = 3 with prob_out null and h_out, c_out non-null. -/
theorem onnx_run_vad_null_outputs_witness :
    (onnx_run_vad true true
        ⟨true, true, true, true, true, some (fun _ => (9 : ℤ)), some (fun n => (n : ℤ)), ""⟩
        (fun _ => 0) (fun _ => 0) (fun _ => 0) true 7 false (fun _ => -1) false
        (fun _ => -1) "").ret = 0 ∧
    (true = true →
      (onnx_run_vad true true
          ⟨true, true, true, true, true, some (fun _ => (9 : ℤ)), some (fun n => (n : ℤ)), ""⟩
          (fun _ => 0) (fun _ => 0) (fun _ => 0) true 7 false (fun _ => -1) false
          (fun _ => -1) "").prob = 7) ∧
    (true = false →
      (onnx_run_vad true true
          ⟨true, true, true, true, true, some (fun _ => (9 : ℤ)), some (fun n => (n : ℤ)), ""⟩
          (fun _ => 0) (fun _ => 0) (fun _ => 0) true 7 false (fun _ => -1) false
          (fun _ => -1) "").prob = (fun _ => (9 : ℤ)) 0) ∧
    (false = true →
      (onnx_run_vad true true
          ⟨true, true, true, true, true, some (fun _ => (9 : ℤ)), some (fun n => (n : ℤ)), ""⟩
          (fun _ => 0) (fun _ => 0) (fun _ => 0) true 7 false (fun _ => -1) false
          (fun _ => -1) "").h_out = (fun _ => -1)) ∧
    (false = false →
      (onnx_run_vad true true
          ⟨true, true, true, true, true, some (fun _ => (9 : ℤ)), some (fun n => (n : ℤ)), ""⟩
          (fun _ => 0) (fun _ => 0) (fun _ => 0) true 7 false (fun _ => -1) false
          (fun _ => -1) "").h_out 3 = (fun n => (n : ℤ)) 3) ∧
    (false = true →
      (onnx_run_vad true true
          ⟨true, true, true, true, true, some (fun _ => (9 : ℤ)), some (fun n => (n : ℤ)), ""⟩
          (fun _ => 0) (fun _ => 0) (fun _ => 0) true 7 false (fun _ => -1) false
          (fun _ => -1) "").c_out = (fun _ => -1)) ∧
    (false = false →
      (onnx_run_vad true true
          ⟨true, true, true, true, true, some (fun _ => (9 : ℤ)), some (fun n => (n : ℤ)), ""⟩
          (fun _ => 0) (fun _ => 0) (fun _ => 0) true 7 false (fun _ => -1) false
          (fun _ => -1) "").c_out 3 = (fun n => (n : ℤ)) (128 + 3)) :=
  onnx_run_vad_null_outputs (fun _ => 0) (fun _ => 0) (fun _ => 0) (fun _ => -1)
    (fun _ => -1) 7 (fun _ => (9 : ℤ)) (fun n => (n : ℤ)) "" "" true false false 3
    (by decide)

/-- C5: on a successful graph execution with non-null embedding_out and a
non-null output data pointer, onnx_run_speaker copies exactly 512 floats
and returns 0, whatever dimensions the runtime reports for the output
tensor (the element count is never checked against 512). -/
theorem onnx_run_speaker_unchecked_copy {α : Type} (dims : List ℕ)
    (d emb0 : ℕ → α) (m err0 : String) (i j : ℕ) (hi : i < 512) (hj : 512 ≤ j) :
    (onnx_run_speaker true true ⟨true, true, true, true, dims, some d, m⟩
        false emb0 err0).ret = 0 ∧
    (onnx_run_speaker true true ⟨true, true, true, true, dims, some d, m⟩
        false emb0 err0).emb i = d i ∧
    (onnx_run_speaker true true ⟨true, true, true, true, dims, some d, m⟩
        false emb0 err0).emb j = emb0 j := by
  refine ⟨rfl, ?_, ?_⟩
  · show memcpyF emb0 0 d 0 512 i = d i
    rw [memcpyF_in _ _ _ _ _ _ (by omega) (by omega), show 0 + (i - 0) = i by omega]
  · show memcpyF emb0 0 d 0 512 j = emb0 j
    rw [memcpyF_out _ _ _ _ _ _ (by omega)]

/-- Witness for C5: the runtime reports a 7-element output shape, not
512, yet 512 floats are copied and the call returns 0. -/
theorem onnx_run_speaker_unchecked_copy_witness :
    (onnx_run_speaker true true ⟨true, true, true, true, [1, 1, 7],
        some (fun n => (n : ℤ)), ""⟩ false (fun _ => -1) "").ret = 0 ∧
    (onnx_run_speaker true true ⟨true, true, true, true, [1, 1, 7],
        some (fun n => (n : ℤ)), ""⟩ false (fun _ => -1) "").emb 11 =
      (fun n => (n : ℤ)) 11 ∧
    (onnx_run_speaker true true ⟨true, true, true, true, [1, 1, 7],
        some (fun n => (n : ℤ)), ""⟩ false (fun _ => -1) "").emb 600 =
      (fun _ => (-1 : ℤ)) 600 :=
  onnx_run_speaker_unchecked_copy [1, 1, 7] (fun n => (n : ℤ)) (fun _ => -1) "" ""
    11 600 (by decide) (by decide)

/-- C10: when graph execution succeeds but embedding_out is null (or the
runtime reports a null output data pointer), onnx_run_speaker returns -1
with the last-error string unchanged, whereas onnx_run_vad with all
output pointers null still returns 0. -/
theorem onnx_run_speaker_null_out {α : Type} (dims : List ℕ) (d emb0 : ℕ → α)
    (m err0 : String) (h_in c_in uninit h0 c0 : ℕ → α) (p0 : α)
    (pd sd : Option (ℕ → α)) (vm verr0 : String) :
    (onnx_run_speaker true true ⟨true, true, true, true, dims, some d, m⟩
        true emb0 err0).ret = -1 ∧
    (onnx_run_speaker true true ⟨true, true, true, true, dims, some d, m⟩
        true emb0 err0).err = err0 ∧
    (onnx_run_speaker true true ⟨true, true, true, true, dims, some d, m⟩
        true emb0 err0).emb = emb0 ∧
    (onnx_run_speaker true true ⟨true, true, true, true, dims, none, m⟩
        false emb0 err0).ret = -1 ∧
    (onnx_run_speaker true true ⟨true, true, true, true, dims, none, m⟩
        false emb0 err0).err = err0 ∧
    (onnx_run_vad true true ⟨true, true, true, true, true, pd, sd, vm⟩
        h_in c_in uninit true p0 true h0 true c0 verr0).ret = 0 := by
  refine ⟨rfl, rfl, rfl, rfl, rfl, rfl⟩

/-- C6: while the runtime environment is uninitialized (as it is after
onnx_cleanup), every inference call returns -1 with the last-error string
set to the invalid-session message without touching any caller buffer or
acquiring any resource, and onnx_create_session returns a null handle
with the not-initialized message. -/
theorem uninitialized_calls_fail {α : Type} (sessionOk g_envOk : Bool)
    (vsc : VadScenario α) (rsc ssc : RunScenario α) (csc : CreateScenario)
    (h_in c_in uninit h0 c0 logits0 emb0 : ℕ → α) (p0 : α)
    (probNull hNull cNull logitsNull embNull : Bool) (maxsz : ℤ)
    (e1 e2 e3 e4 : String) (g : Glob) :
    (onnx_cleanup g).g_ort = false ∧
    (onnx_run_vad sessionOk false vsc h_in c_in uninit probNull p0 hNull h0
        cNull c0 e1).ret = -1 ∧
    (onnx_run_vad sessionOk false vsc h_in c_in uninit probNull p0 hNull h0
        cNull c0 e1).err = "Invalid session" ∧
    (onnx_run_vad sessionOk false vsc h_in c_in uninit probNull p0 hNull h0
        cNull c0 e1).prob = p0 ∧
    (onnx_run_vad sessionOk false vsc h_in c_in uninit probNull p0 hNull h0
        cNull c0 e1).h_out = h0 ∧
    (onnx_run_vad sessionOk false vsc h_in c_in uninit probNull p0 hNull h0
        cNull c0 e1).c_out = c0 ∧
    (onnx_run_vad sessionOk false vsc h_in c_in uninit probNull p0 hNull h0
        cNull c0 e1).allocs = [] ∧
    (onnx_run_asr sessionOk false rsc maxsz logitsNull logits0 e2).ret = -1 ∧
    (onnx_run_asr sessionOk false rsc maxsz logitsNull logits0 e2).err =
      "Invalid session" ∧
    (onnx_run_asr sessionOk false rsc maxsz logitsNull logits0 e2).logits = logits0 ∧
    (onnx_run_speaker sessionOk false ssc embNull emb0 e3).ret = -1 ∧
    (onnx_run_speaker sessionOk false ssc embNull emb0 e3).err =
      "Invalid session" ∧
    (onnx_run_speaker sessionOk false ssc embNull emb0 e3).emb = emb0 ∧
    onnx_create_session false g_envOk csc e4 =
      (none, "ONNX Runtime not initialized") := by
  have hguard : (!sessionOk || !false) = true := by simp
  have hguard2 : (!false || !g_envOk) = true := rfl
  unfold onnx_run_vad onnx_run_asr onnx_run_speaker onnx_create_session
  rw [hguard, hguard2]
  simp [onnx_cleanup]

/-- The wrapped size_t product is the true product reduced modulo 2 ^ 64. -/
theorem asrOutputSize_mod (dims : List ℕ) :
    asrOutputSize dims = dims.foldl (· * ·) 1 % 2 ^ 64 := by
  have key : ∀ (l : List ℕ) (a : ℕ),
      l.foldl (fun a d => a * d % 2 ^ 64) (a % 2 ^ 64) = l.foldl (· * ·) a % 2 ^ 64 := by
    intro l
    induction l with
    | nil => intro a; simp
    | cons d t ih =>
      intro a
      simp only [List.foldl_cons]
      rw [Nat.mod_mul_mod, ih (a * d)]
  have h1 : (1 : ℕ) % 2 ^ 64 = 1 := by norm_num
  calc asrOutputSize dims = dims.foldl (fun a d => a * d % 2 ^ 64) (1 % 2 ^ 64) := by
        rw [h1]; rfl
    _ = dims.foldl (· * ·) 1 % 2 ^ 64 := key dims 1

/-- Below 2 ^ 31 the size_t to int cast is the identity. -/
theorem sizeTToInt_small (n : ℕ) (h : n < 2 ^ 31) : sizeTToInt n = n := by
  unfold sizeTToInt
  have hm : n % 2 ^ 32 = n := Nat.mod_eq_of_lt (by omega)
  rw [hm, if_pos h]

/-- C2 (amended): when the product of the runtime-reported output
dimensions is representable as a C int, a successful onnx_run_asr call
with non-null output data and logits_out returns that product after
copying exactly that many floats, and when the product exceeds
max_output_size it returns -1 with the OutputBufferTooSmall message and
leaves the output buffer untouched. -/
theorem onnx_run_asr_spec {α : Type} (dims : List ℕ) (d logits0 : ℕ → α)
    (maxsz : ℤ) (m err0 : String) (i : ℕ)
    (hbound : dims.foldl (· * ·) 1 ≤ 2 ^ 31 - 1) :
    (((dims.foldl (· * ·) 1 : ℕ) : ℤ) ≤ maxsz →
      (onnx_run_asr true true ⟨true, true, true, true, dims, some d, m⟩
          maxsz false logits0 err0).ret = ((dims.foldl (· * ·) 1 : ℕ) : ℤ) ∧
      (i < dims.foldl (· * ·) 1 →
        (onnx_run_asr true true ⟨true, true, true, true, dims, some d, m⟩
            maxsz false logits0 err0).logits i = d i) ∧
      (dims.foldl (· * ·) 1 ≤ i →
        (onnx_run_asr true true ⟨true, true, true, true, dims, some d, m⟩
            maxsz false logits0 err0).logits i = logits0 i)) ∧
    (maxsz < ((dims.foldl (· * ·) 1 : ℕ) : ℤ) →
      (onnx_run_asr true true ⟨true, true, true, true, dims, some d, m⟩
          maxsz false logits0 err0).ret = -1 ∧
      (onnx_run_asr true true ⟨true, true, true, true, dims, some d, m⟩
          maxsz false logits0 err0).err = "Output buffer too small" ∧
      (onnx_run_asr true true ⟨true, true, true, true, dims, some d, m⟩
          maxsz false logits0 err0).logits = logits0) := by
  have hsize : asrOutputSize dims = dims.foldl (· * ·) 1 := by
    rw [asrOutputSize_mod]
    exact Nat.mod_eq_of_lt (by omega)
  have hcast : sizeTToInt (asrOutputSize dims) = ((dims.foldl (· * ·) 1 : ℕ) : ℤ) := by
    rw [hsize]
    exact sizeTToInt_small _ (by omega)
  have hreduce : onnx_run_asr true true ⟨true, true, true, true, dims, some d, m⟩
      maxsz false logits0 err0 =
      (if sizeTToInt (asrOutputSize dims) ≤ maxsz then
        { ret := sizeTToInt (asrOutputSize dims), err := err0,
          logits := memcpyF logits0 0 d 0 (asrOutputSize dims) }
      else { ret := -1, err := "Output buffer too small", logits := logits0 }) := by
    rfl
  constructor
  · intro hle
    rw [hreduce, if_pos (by rw [hcast]; exact hle)]
    refine ⟨hcast, ?_, ?_⟩
    · intro hilt
      show memcpyF logits0 0 d 0 (asrOutputSize dims) i = d i
      rw [memcpyF_in _ _ _ _ _ _ (by omega) (by omega), show 0 + (i - 0) = i by omega]
    · intro hige
      show memcpyF logits0 0 d 0 (asrOutputSize dims) i = logits0 i
      rw [memcpyF_out _ _ _ _ _ _ (by rw [hsize]; omega)]
  · intro hgt
    rw [hreduce, if_neg (by rw [hcast]; omega)]
    exact ⟨rfl, rfl, rfl⟩

/-- Witness for C2 (amended) with dims [2, 3], max_output_size 6, i = 5. -/
theorem onnx_run_asr_spec_witness :
    (((([2, 3] : List ℕ).foldl (· * ·) 1 : ℕ) : ℤ) ≤ (6 : ℤ) →
      (onnx_run_asr true true ⟨true, true, true, true, [2, 3],
          some (fun n => (n : ℤ)), ""⟩ 6 false (fun _ => -1) "").ret =
        ((([2, 3] : List ℕ).foldl (· * ·) 1 : ℕ) : ℤ) ∧
      (5 < ([2, 3] : List ℕ).foldl (· * ·) 1 →
        (onnx_run_asr true true ⟨true, true, true, true, [2, 3],
            some (fun n => (n : ℤ)), ""⟩ 6 false (fun _ => -1) "").logits 5 =
          (fun n => (n : ℤ)) 5) ∧
      (([2, 3] : List ℕ).foldl (· * ·) 1 ≤ 5 →
        (onnx_run_asr true true ⟨true, true, true, true, [2, 3],
            some (fun n => (n : ℤ)), ""⟩ 6 false (fun _ => -1) "").logits 5 =
          (fun _ => (-1 : ℤ)) 5)) ∧
    ((6 : ℤ) < ((([2, 3] : List ℕ).foldl (· * ·) 1 : ℕ) : ℤ) →
      (onnx_run_asr true true ⟨true, true, true, true, [2, 3],
          some (fun n => (n : ℤ)), ""⟩ 6 false (fun _ => -1) "").ret = -1 ∧
      (onnx_run_asr true true ⟨true, true, true, true, [2, 3],
          some (fun n => (n : ℤ)), ""⟩ 6 false (fun _ => -1) "").err =
        "Output buffer too small" ∧
      (onnx_run_asr true true ⟨true, true, true, true, [2, 3],
          some (fun n => (n : ℤ)), ""⟩ 6 false (fun _ => -1) "").logits =
        (fun _ => (-1 : ℤ))) :=
  onnx_run_asr_spec [2, 3] (fun n => (n : ℤ)) (fun _ => -1) 6 "" "" 5 (by norm_num)

/-- Counterexample for C2 as stated: with runtime-reported dimensions
[2 ^ 31] and max_output_size 2 ^ 31 - 1 the product exceeds the buffer
capacity by one, yet the size_t product cast to int wraps to -2 ^ 31,
the too-small check passes, 2 ^ 31 floats are copied over the buffer and
-2 ^ 31 is returned: the call neither returns -1, nor sets the
OutputBufferTooSmall message, nor leaves the buffer untouched. -/
theorem onnx_run_asr_wrap_counterexample :
    (onnx_run_asr true true ⟨true, true, true, true, [2 ^ 31],
        some (fun _ => (0 : ℤ)), ""⟩ (2 ^ 31 - 1) false (fun _ => 7) "").ret ≠ -1 ∧
    (onnx_run_asr true true ⟨true, true, true, true, [2 ^ 31],
        some (fun _ => (0 : ℤ)), ""⟩ (2 ^ 31 - 1) false (fun _ => 7) "").err ≠
      "Output buffer too small" ∧
    (onnx_run_asr true true ⟨true, true, true, true, [2 ^ 31],
        some (fun _ => (0 : ℤ)), ""⟩ (2 ^ 31 - 1) false (fun _ => 7) "").logits 0 ≠ 7 ∧
    (onnx_run_asr true true ⟨true, true, true, true, [2 ^ 31],
        some (fun _ => (0 : ℤ)), ""⟩ (2 ^ 31 - 1) false (fun _ => 7) "").ret =
      -(2 ^ 31) := by
  have hsize : asrOutputSize [2 ^ 31] = 2 ^ 31 := by
    show 1 * 2 ^ 31 % 2 ^ 64 = 2 ^ 31
    norm_num
  have hcast : sizeTToInt (asrOutputSize [2 ^ 31]) = -(2 ^ 31) := by
    rw [hsize]
    unfold sizeTToInt
    rw [Nat.mod_eq_of_lt (by norm_num), if_neg (by norm_num)]
    norm_num
  have hreduce : onnx_run_asr true true ⟨true, true, true, true, [2 ^ 31],
      some (fun _ => (0 : ℤ)), ""⟩ (2 ^ 31 - 1) false (fun _ => 7) "" =
      (if sizeTToInt (asrOutputSize [2 ^ 31]) ≤ (2 ^ 31 - 1 : ℤ) then
        { ret := sizeTToInt (asrOutputSize [2 ^ 31]), err := "",
          logits := memcpyF (fun _ => 7) 0 (fun _ => (0 : ℤ)) 0 (asrOutputSize [2 ^ 31]) }
      else { ret := -1, err := "Output buffer too small", logits := fun _ => 7 }) := by
    rfl
  rw [hreduce, if_pos (by rw [hcast]; norm_num)]
  refine ⟨by rw [hcast]; norm_num, by decide, ?_, by rw [hcast]⟩
  show memcpyF (fun _ => 7) 0 (fun _ => (0 : ℤ)) 0 (asrOutputSize [2 ^ 31]) 0 ≠ 7
  rw [memcpyF_in _ _ _ _ _ _ (by omega) (by rw [hsize]; norm_num)]
  norm_num

/-- Every event emitted by the name-array loop has release rank 0. -/
theorem destroyNames_class (num : ℕ) (names : Option (List Bool)) (al out : Bool)
    (e : DEvent) (he : e ∈ destroyNames num names al out) : eventClass e = 0 := by
  cases names with
  | none => simp [destroyNames] at he
  | some l =>
    simp only [destroyNames, List.mem_append, List.mem_filterMap,
      List.mem_singleton] at he
    rcases he with ⟨i, _, hi⟩ | rfl
    · by_cases hc : (l.getD i false && al) = true
      · rw [if_pos hc] at hi
        have hei := Option.some.inj hi
        subst hei
        rfl
      · rw [if_neg hc] at hi
        cases hi
    · rfl

/-- A list whose elements are all zero is sorted under the weak order. -/
theorem pairwise_le_all_zero {l : List ℕ} (h : ∀ x ∈ l, x = 0) :
    l.Pairwise (· ≤ ·) := by
  induction l with
  | nil => exact List.Pairwise.nil
  | cons a t ih =>
    constructor
    · intro b hb
      rw [h a (by simp)]
      exact Nat.zero_le b
    · exact ih (fun x hx => h x (by simp [hx]))

/-- Prepending rank-zero elements preserves sortedness. -/
theorem pairwise_le_append_zero {xs ys : List ℕ} (hx : ∀ x ∈ xs, x = 0)
    (hy : ys.Pairwise (· ≤ ·)) : (xs ++ ys).Pairwise (· ≤ ·) := by
  rw [List.pairwise_append]
  refine ⟨pairwise_le_all_zero hx, hy, ?_⟩
  intro a ha b _
  rw [hx a ha]
  exact Nat.zero_le b

/-- C3 (amended): onnx_destroy_session releases in the order name arrays
first, then the graph (session) object, then the execution-configuration
(session options) object, then the struct; any unset field is skipped
(no release event is emitted for it) and a null handle produces no event
at all. -/
theorem onnx_destroy_session_order (g : Bool) (s : SessionModel) :
    ((onnx_destroy_session g (some s)).map eventClass).Pairwise (· ≤ ·) ∧
    (s.hasSession = false →
      DEvent.releaseSession ∉ onnx_destroy_session g (some s)) ∧
    (s.hasOptions = false →
      DEvent.releaseOptions ∉ onnx_destroy_session g (some s)) ∧
    onnx_destroy_session g none = [] := by
  have hA : ∀ x ∈ (destroyNames s.num_inputs s.input_names s.hasAllocator
      false).map eventClass, x = 0 := by
    intro x hx
    rcases List.mem_map.mp hx with ⟨e, he, rfl⟩
    exact destroyNames_class _ _ _ _ _ he
  have hB : ∀ x ∈ (destroyNames s.num_outputs s.output_names s.hasAllocator
      true).map eventClass, x = 0 := by
    intro x hx
    rcases List.mem_map.mp hx with ⟨e, he, rfl⟩
    exact destroyNames_class _ _ _ _ _ he
  have hshape : onnx_destroy_session g (some s) =
      destroyNames s.num_inputs s.input_names s.hasAllocator false ++
      (destroyNames s.num_outputs s.output_names s.hasAllocator true ++
       ((if s.hasSession && g then [DEvent.releaseSession] else []) ++
        ((if s.hasOptions && g then [DEvent.releaseOptions] else []) ++
         [DEvent.freeStruct]))) := by
    simp [onnx_destroy_session, List.append_assoc]
  refine ⟨?_, ?_, ?_, rfl⟩
  · rw [hshape, List.map_append]
    apply pairwise_le_append_zero hA
    rw [List.map_append]
    apply pairwise_le_append_zero hB
    by_cases h1 : (s.hasSession && g) = true <;>
      by_cases h2 : (s.hasOptions && g) = true <;>
      simp [h1, h2] <;> decide
  · intro hS hmem
    rw [hshape] at hmem
    simp only [List.mem_append] at hmem
    rcases hmem with h | h | h | h | h
    · exact absurd (destroyNames_class _ _ _ _ _ h) (by decide)
    · exact absurd (destroyNames_class _ _ _ _ _ h) (by decide)
    · rw [hS] at h
      simp at h
    · by_cases h2 : (s.hasOptions && g) = true
      · rw [if_pos h2] at h
        simp at h
      · rw [if_neg h2] at h
        simp at h
    · simp at h
  · intro hO hmem
    rw [hshape] at hmem
    simp only [List.mem_append] at hmem
    rcases hmem with h | h | h | h | h
    · exact absurd (destroyNames_class _ _ _ _ _ h) (by decide)
    · exact absurd (destroyNames_class _ _ _ _ _ h) (by decide)
    · by_cases h1 : (s.hasSession && g) = true
      · rw [if_pos h1] at h
        simp at h
      · rw [if_neg h1] at h
        simp at h
    · rw [hO] at h
      simp at h
    · simp at h

/-- Witness for C3 (amended) at an all-unset session, with the skip
conclusions applied with their hypotheses discharged. -/
theorem onnx_destroy_session_order_witness :
    ((onnx_destroy_session true
        (some ⟨false, false, false, none, none, 0, 0⟩)).map eventClass).Pairwise
      (· ≤ ·) ∧
    DEvent.releaseSession ∉ onnx_destroy_session true
      (some ⟨false, false, false, none, none, 0, 0⟩) ∧
    DEvent.releaseOptions ∉ onnx_destroy_session true
      (some ⟨false, false, false, none, none, 0, 0⟩) ∧
    onnx_destroy_session true none = [] :=
  ⟨(onnx_destroy_session_order true ⟨false, false, false, none, none, 0, 0⟩).1,
   (onnx_destroy_session_order true ⟨false, false, false, none, none, 0, 0⟩).2.1 rfl,
   (onnx_destroy_session_order true ⟨false, false, false, none, none, 0, 0⟩).2.2.1 rfl,
   (onnx_destroy_session_order true ⟨false, false, false, none, none, 0, 0⟩).2.2.2⟩

/-- Counterexample for C3 as stated: on a fully populated session the
graph (session) object is released strictly before the
execution-configuration (session options) object, contradicting the
claimed order of options before session. -/
theorem onnx_destroy_session_order_counterexample :
    DEvent.releaseSession ∈ onnx_destroy_session true
      (some ⟨true, true, true, some [true], some [true], 1, 1⟩) ∧
    DEvent.releaseOptions ∈ onnx_destroy_session true
      (some ⟨true, true, true, some [true], some [true], 1, 1⟩) ∧
    (onnx_destroy_session true
        (some ⟨true, true, true, some [true], some [true], 1, 1⟩)).indexOf
        DEvent.releaseSession <
      (onnx_destroy_session true
        (some ⟨true, true, true, some [true], some [true], 1, 1⟩)).indexOf
        DEvent.releaseOptions := by
  decide
